import Mathlib

/-!
Shallow embedding of the BackendApplication device-inventory service
(src/BackendApplication). The deployed application is the one produced by
app.py's create_app — wsgi.py loads it and the blueprint drafts under
routes/ are never registered — so the handlers embedded below are the
closures defined inside app.py's create_app, together with the module-level
helpers is_ipv4, validate_device_payload, serialize_device and
error_response. The MongoDB devices collection is modelled as a list of
documents in insertion order with a store-assigned numeric key (_id is
unique in MongoDB); the reachability probe (ping_host) is external I/O and
is modelled as a boolean oracle on host strings. JSON payload values are
modelled by the null/string/boolean values the handlers inspect.
-/

/-- JSON values as far as the handlers inspect them: null, strings and
booleans.  Python truthiness on these drives serialize_device and the
status probe. -/
inductive JVal where
  | jnull : JVal
  | jstr (s : String) : JVal
  | jbool (b : Bool) : JVal
deriving DecidableEq, Repr

/-- A request payload: the JSON object body as an association list,
mirroring the Python dict handed around by the handlers. -/
abbrev Payload : Type := List (String × JVal)

/-- Python truthiness of an optional JSON value: None, the empty string and
False are falsy; a missing key is treated like None at the call sites that
use dict.get. -/
def truthy : Option JVal → Bool
  | none => false
  | some JVal.jnull => false
  | some (JVal.jstr s) => !(s == "")
  | some (JVal.jbool b) => b

/-- One required-field test of validate_device_payload: the key is absent,
or its value compares equal to None or to the empty string. -/
def fieldMissing (payload : Payload) (k : String) : Bool :=
  match List.lookup k payload with
  | none => true
  | some v => v == JVal.jnull || v == JVal.jstr ""

/-- The code-point ranges of the characters the \d class of a Python 3
str pattern matches (Unicode decimal digits, category Nd), enumerated from
the interpreter's re module. -/
def ndRanges : List (Nat × Nat) :=
  [(48, 57), (1632, 1641), (1776, 1785), (1984, 1993), (2406, 2415),
   (2534, 2543), (2662, 2671), (2790, 2799), (2918, 2927), (3046, 3055),
   (3174, 3183), (3302, 3311), (3430, 3439), (3558, 3567), (3664, 3673),
   (3792, 3801), (3872, 3881), (4160, 4169), (4240, 4249), (6112, 6121),
   (6160, 6169), (6470, 6479), (6608, 6617), (6784, 6793), (6800, 6809),
   (6992, 7001), (7088, 7097), (7232, 7241), (7248, 7257), (42528, 42537),
   (43216, 43225), (43264, 43273), (43472, 43481), (43504, 43513),
   (43600, 43609), (44016, 44025), (65296, 65305), (66720, 66729),
   (68912, 68921), (69734, 69743), (69872, 69881), (69942, 69951),
   (70096, 70105), (70384, 70393), (70736, 70745), (70864, 70873),
   (71248, 71257), (71360, 71369), (71472, 71481), (71904, 71913),
   (72016, 72025), (72784, 72793), (73040, 73049), (73120, 73129),
   (92768, 92777), (92864, 92873), (93008, 93017), (120782, 120831),
   (123200, 123209), (123632, 123641), (125264, 125273), (130032, 130041)]

/-- The \d class of the pattern: any Unicode decimal digit, as Python 3
re matches on str subjects. -/
def isDig (c : Char) : Bool :=
  ndRanges.any (fun r => decide (r.1 ≤ c.toNat) && decide (c.toNat ≤ r.2))

/-- One alternative of the octet group of app.py's IPv4 regular expression:
25[0-5], 2[0-4] then a digit, or an optional 1, an optional digit and a
digit — i.e. any 1- or 2-digit run, or a 3-digit run that spells 100-255. -/
def isOctet (s : List Char) : Bool :=
  match s with
  | [a] => isDig a
  | [a, b] => isDig a && isDig b
  | [a, b, c] =>
      (a == '1' && isDig b && isDig c) ||
      (a == '2' && decide ('0' ≤ b) && decide (b ≤ '4') && isDig c) ||
      (a == '2' && b == '5' && decide ('0' ≤ c) && decide (c ≤ '5'))
  | _ => false

/-- Split a character list at every dot, keeping empty groups, as the
anchored regular expression partitions its subject between the literal
dots. -/
def splitDots : List Char → List (List Char)
  | [] => [[]]
  | c :: cs =>
      match splitDots cs with
      | [] => if c == '.' then [[], []] else [[c]]
      | g :: gs => if c == '.' then [] :: g :: gs else (c :: g) :: gs

/-- Remove one trailing newline when present: the position Python's $
anchor also matches at, just before a single newline at the very end of
the subject. -/
def dropTrailingNl : List Char → List Char
  | [] => []
  | [c] => if c == '\n' then [] else [c]
  | c :: c2 :: rest => c :: dropTrailingNl (c2 :: rest)

/-- Four dot-separated octet groups covering a whole character list: the
body of app.py's is_ipv4 regular expression between its anchors. -/
def ipv4Core (cs : List Char) : Bool :=
  (splitDots cs).length == 4 && (splitDots cs).all isOctet

/-- app.py is_ipv4: re.match of the pattern, anchored with a leading caret
and a trailing dollar — an octet group followed by exactly three further
dot-octet groups.  Python's dollar also matches just before one trailing
newline, so the pattern covers the whole subject or the whole subject less
a single final newline (a newline can occur nowhere else, as no class of
the pattern contains it). -/
def is_ipv4 (val : String) : Bool :=
  ipv4Core (dropTrailingNl val.data)

/-- is_ipv4 applied to payload.get of the ip_address key: the handler
computes val or-else the empty string, so an absent key, null or boolean
false coerce to the empty string (rejected by the pattern), a string is
matched, and boolean true — being truthy but not a string — makes re.match
raise TypeError, modelled as none. -/
def is_ipv4_get (v : Option JVal) : Option Bool :=
  match v with
  | some (JVal.jstr s) => some (is_ipv4 s)
  | some (JVal.jbool true) => none
  | _ => some false

/-- A strict octet for the spec-side reading of an IPv4 literal: one to
three ASCII decimal digits spelling a value up to 255. -/
def isStrictOctet (g : List Char) : Bool :=
  decide (1 ≤ g.length) && decide (g.length ≤ 3) &&
  g.all (fun c => decide ('0' ≤ c) && decide (c ≤ '9')) &&
  decide (g.foldl (fun acc c => 10 * acc + (c.toNat - 48)) 0 ≤ 255)

/-- A dotted-decimal IPv4 literal in the sense of the spec's wording —
four dot-separated octets, each 0-255, and nothing else in the string;
the yardstick for the claims' phrase about a syntactically literal IPv4
address, to compare against the code's more liberal test. -/
def isIPv4Literal (s : String) : Bool :=
  (splitDots s.data).length == 4 && (splitDots s.data).all isStrictOctet

/-- The required-field list of validate_device_payload: name, ip_address,
type, location, and additionally status when require_status is set. -/
def requiredFields (require_status : Bool) : List String :=
  ["name", "ip_address", "type", "location"] ++
    (if require_status then ["status"] else [])

/-- The type-enumeration test of validate_device_payload: the type value is
one of the strings router, switch, server. -/
def typeValid (payload : Payload) : Bool :=
  List.lookup "type" payload == some (JVal.jstr "router") ||
  List.lookup "type" payload == some (JVal.jstr "switch") ||
  List.lookup "type" payload == some (JVal.jstr "server")

/-- The status-enumeration test of validate_device_payload: the status value
is one of the strings online, offline. -/
def statusValid (payload : Payload) : Bool :=
  List.lookup "status" payload == some (JVal.jstr "online") ||
  List.lookup "status" payload == some (JVal.jstr "offline")

/-- app.py validate_device_payload: walk the required fields in order and
fail on the first absent/empty one, then check IPv4 syntax of ip_address,
then the type enumeration, then — only when require_status — the status
enumeration; accept otherwise.  Short-circuits at the first failure.  When
the ip_address step raises TypeError (boolean-true value, see is_ipv4_get)
the exception escapes the function, modelled as none. -/
def validate_device_payload (payload : Payload) (require_status : Bool) :
    Option (Bool × String) :=
  match (requiredFields require_status).find? (fun k => fieldMissing payload k) with
  | some k => some (false, k ++ " is required")
  | none =>
    match is_ipv4_get (List.lookup "ip_address" payload) with
    | none => none
    | some ipok =>
      if ipok = false then
        some (false, "ip_address must be valid IPv4")
      else if typeValid payload = false then
        some (false, "type must be one of router, switch, server")
      else if require_status && !statusValid payload then
        some (false, "status must be one of online, offline")
      else some (true, "")

example : is_ipv4 "10.0.0.1" = true := by decide
example : is_ipv4 "256.1.1.1" = false := by decide
example : is_ipv4 "::1" = false := by decide
example : is_ipv4 "1.2.3" = false := by decide
example : is_ipv4 "1.2.3.4.5" = false := by decide
example : is_ipv4 "01.2.3.4" = true := by decide
example : is_ipv4 "" = false := by decide
example : is_ipv4 "1.2.3.4\n" = true := by decide
example : is_ipv4 "1.2.3.4\n\n" = false := by decide
example : is_ipv4 "١.٢.٣.٤" = true := by decide
example :
    validate_device_payload [("ip_address", JVal.jstr "1.2.3.4")] false =
      some (false, "name is required") := by decide
example :
    validate_device_payload
      [("name", JVal.jstr "r"), ("ip_address", JVal.jstr "1.2.3.4"),
       ("type", JVal.jstr "router"), ("location", JVal.jstr "x")] false =
      some (true, "") := by decide

/-- A stored document of the MongoDB devices collection: the store-assigned
key (the _id, unique in MongoDB) plus the payload fields the handlers
write.  The created_at/updated_at timestamps are set by the handlers but
never serialized or read back, so they are not part of the model. -/
structure Doc where
  oid : Nat
  name : JVal
  ip_address : JVal
  type : JVal
  location : JVal
  status : JVal
deriving DecidableEq, Repr

/-- The devices collection: documents in insertion order together with the
next store-assigned key.  MongoDB assigns a fresh ObjectId to every insert,
so keys of live documents are strictly below nextId. -/
structure DB where
  devices : List Doc
  nextId : Nat
deriving DecidableEq, Repr

/-- The empty store. -/
def dbEmpty : DB := { devices := [], nextId := 0 }

/-- The string form of a store key, as str of the ObjectId renders an
opaque string that crosses the API boundary; modelled by an injective
encoding of the numeric key. -/
def oidString (n : Nat) : String := String.mk (List.replicate (n + 1) 'd')

/-- The Device JSON shape produced by app.py serialize_device. -/
structure DeviceOut where
  id : String
  name : JVal
  ip_address : JVal
  type : JVal
  location : JVal
  status : JVal
deriving DecidableEq, Repr

/-- app.py serialize_device: copy the stored fields, render the key as a
string, and coerce a falsy stored status (absent, null or empty) to the
string offline via the expression doc.get of status or-else offline. -/
def serialize_device (d : Doc) : DeviceOut :=
  { id := oidString d.oid, name := d.name, ip_address := d.ip_address,
    type := d.type, location := d.location,
    status := if truthy (some d.status) then d.status else JVal.jstr "offline" }

/-- Modelled from the spec: find_device_by_any_id is invoked by the
get/update/delete/status handlers in app.py but no definition of it exists
anywhere under src/.  Following section 4.2 (IdentifierResolver) and the
find_by_identifier contract of section 4.3: the raw identifier string is
resolved against the store's native key representation and the matching
document returned; a malformed or otherwise unresolvable identifier is
reported identically to a genuine miss (none), never as an error. -/
def find_device_by_any_id (devices : List Doc) (id : String) : Option Doc :=
  devices.find? (fun d => oidString d.oid == id)

/-- An HTTP response of the embedded handlers: a success body (device,
device list, status object or empty 204 body), the error_response envelope
carrying a status code and message, or an exception escaping the handler —
app.py registers no error handlers, so the framework renders it as a
generic 500. -/
inductive Resp where
  | okDevice (code : Nat) (d : DeviceOut) : Resp
  | okList (ds : List DeviceOut) : Resp
  | okStatus (status : String) : Resp
  | noContent : Resp
  | error (code : Nat) (msg : String) : Resp
  | unhandled : Resp
deriving DecidableEq, Repr

/-- The HTTP status code of a response: 200 for the success bodies, 201 is
carried on okDevice, 204 for the empty body, and the explicit code of an
error envelope. -/
def respCode : Resp → Nat
  | Resp.okDevice c _ => c
  | Resp.okList _ => 200
  | Resp.okStatus _ => 200
  | Resp.noContent => 204
  | Resp.error c _ => c
  | Resp.unhandled => 500

/-- app.py health endpoint: always 200; the body carries success, the
service name, the availability flag and a timestamp — and nothing else;
in particular the init_db error string is not referenced by the handler. -/
def health (db_available : Bool) (timestamp : String) :
    Nat × List (String × JVal) :=
  (200,
   [("success", JVal.jbool true),
    ("service", JVal.jstr "BackendApplication"),
    ("db_available", JVal.jbool db_available),
    ("timestamp", JVal.jstr timestamp)])

/-- app.py list_devices: 503 when the store is unavailable, otherwise
serialize the full collection in the store's order (find with no sort). -/
def list_devices (db_available : Bool) (db : DB) : Resp :=
  if db_available = false then Resp.error 503 "Database unavailable"
  else Resp.okList (db.devices.map serialize_device)

/-- The status-defaulting step of app.py create_device: when the status key
is absent from the payload, it is set to the string offline. -/
def withStatusDefault (payload : Payload) : Payload :=
  if List.lookup "status" payload = none then
    payload ++ [("status", JVal.jstr "offline")]
  else payload

/-- The document the create handler inserts: the five payload fields under
a fresh store key (the handler reads the payload keys it just validated). -/
def newDoc (oid : Nat) (payload : Payload) : Doc :=
  { oid := oid,
    name := (List.lookup "name" payload).getD JVal.jnull,
    ip_address := (List.lookup "ip_address" payload).getD JVal.jnull,
    type := (List.lookup "type" payload).getD JVal.jnull,
    location := (List.lookup "location" payload).getD JVal.jnull,
    status := (List.lookup "status" payload).getD JVal.jnull }

/-- app.py create_device: 503 when the store is unavailable; a missing or
unparseable body is replaced by the empty object (request.get_json with
silent, or-else the empty dict); validate without requiring status — a
validator exception (boolean-true ip_address) escapes the handler, and
since create_app registers no error handlers the framework renders it as a
generic 500, modelled as unhandled; default
status to offline when the key is absent; insert — the unique index on
ip_address makes the insert fail on a collision with a live document, which
the handler classifies as 409 — and return the inserted document, 201. -/
def create_device (db_available : Bool) (db : DB) (body : Option Payload) :
    Resp × DB :=
  if db_available = false then (Resp.error 503 "Database unavailable", db)
  else
    let payload := body.getD []
    match validate_device_payload payload false with
    | none => (Resp.unhandled, db)
    | some v =>
      if v.1 = false then (Resp.error 400 v.2, db)
      else
        let payload := withStatusDefault payload
        let ipv := (List.lookup "ip_address" payload).getD JVal.jnull
        if db.devices.any (fun d => d.ip_address == ipv) then
          (Resp.error 409 "Device with this IP already exists", db)
        else
          let doc := newDoc db.nextId payload
          (Resp.okDevice 201 (serialize_device doc),
           { devices := db.devices ++ [doc], nextId := db.nextId + 1 })

/-- app.py get_device: 503 when the store is unavailable; resolve the
identifier; 404 on a miss; otherwise serialize the document, 200. -/
def get_device (db_available : Bool) (db : DB) (id : String) : Resp :=
  if db_available = false then Resp.error 503 "Database unavailable"
  else
    match find_device_by_any_id db.devices id with
    | none => Resp.error 404 "Device not found"
    | some doc => Resp.okDevice 200 (serialize_device doc)

/-- The field replacement performed by the update handler's update_one:
the five payload fields under the existing key. -/
def updateFields (oid : Nat) (payload : Payload) : Doc :=
  { oid := oid,
    name := (List.lookup "name" payload).getD JVal.jnull,
    ip_address := (List.lookup "ip_address" payload).getD JVal.jnull,
    type := (List.lookup "type" payload).getD JVal.jnull,
    location := (List.lookup "location" payload).getD JVal.jnull,
    status := (List.lookup "status" payload).getD JVal.jnull }

/-- app.py update_device: 503 when the store is unavailable; a missing or
unparseable body is replaced by the empty object; validate requiring
status (a validator exception escapes as an unhandled 500, as in
create_device); resolve the identifier, 404 on a miss; 409 when another live
document (key different from the resolved one) holds the new ip_address;
otherwise replace the mutable fields of the resolved document (update_one
on its unique _id, modelled pointwise) and return the re-fetched document,
200. -/
def update_device (db_available : Bool) (db : DB) (id : String)
    (body : Option Payload) : Resp × DB :=
  if db_available = false then (Resp.error 503 "Database unavailable", db)
  else
    let payload := body.getD []
    match validate_device_payload payload true with
    | none => (Resp.unhandled, db)
    | some v =>
      if v.1 = false then (Resp.error 400 v.2, db)
      else
        match find_device_by_any_id db.devices id with
        | none => (Resp.error 404 "Device not found", db)
        | some doc =>
          let newIp := (List.lookup "ip_address" payload).getD JVal.jnull
          if db.devices.any (fun d => d.ip_address == newIp && !(d.oid == doc.oid)) then
            (Resp.error 409 "Device with this IP already exists", db)
          else
            let updated := updateFields doc.oid payload
            (Resp.okDevice 200 (serialize_device updated),
             { db with
                devices := db.devices.map
                  (fun d => if d.oid == doc.oid then updated else d) })

/-- app.py delete_device: 503 when the store is unavailable; resolve the
identifier, 404 on a miss; otherwise delete_one on the resolved unique _id
(remove the first matching document) and answer 204 with an empty body. -/
def delete_device (db_available : Bool) (db : DB) (id : String) :
    Resp × DB :=
  if db_available = false then (Resp.error 503 "Database unavailable", db)
  else
    match find_device_by_any_id db.devices id with
    | none => (Resp.error 404 "Device not found", db)
    | some doc =>
      (Resp.noContent,
       { db with devices := db.devices.eraseP (fun d => d.oid == doc.oid) })

/-- The probe step of app.py device_status: when the address value is a
truthy string, probe it (ping_host, modelled by the oracle — a
probe-mechanism failure already collapses to false inside ping_host) and
map the verdict to online/offline; a falsy or non-string address is never
probed and yields offline. -/
def probeStatus (ping : String → Bool) (v : JVal) : String :=
  match v with
  | JVal.jstr s =>
      if s == "" then "offline"
      else if ping s then "online" else "offline"
  | _ => "offline"

/-- app.py device_status.  With the store available: resolve the
identifier, 404 on a miss; probe the stored ip_address (see probeStatus);
persist the computed status on the document (best effort, modelled as
succeeding) and answer 200.  With the store unavailable: the identifier
itself is used as the probe target when it is syntactically IPv4, otherwise
the address is unknown and the answer is offline without probing; nothing
is persisted; the answer is 200 either way, never 503. -/
def device_status (db_available : Bool) (db : DB) (ping : String → Bool)
    (id : String) : Resp × DB :=
  if db_available = false then
    if is_ipv4 id then
      (Resp.okStatus (if ping id then "online" else "offline"), db)
    else (Resp.okStatus "offline", db)
  else
    match find_device_by_any_id db.devices id with
    | none => (Resp.error 404 "Device not found", db)
    | some device =>
      (Resp.okStatus (probeStatus ping device.ip_address),
       { db with
          devices := db.devices.map
            (fun d =>
              if d.oid == device.oid then
                { d with status := JVal.jstr (probeStatus ping device.ip_address) }
              else d) })

/-- Shared concrete probe oracle for witnesses: every host reachable. -/
def pingAll (_host : String) : Bool := true

/-- Shared concrete probe oracle for witnesses: no host reachable. -/
def pingNone (_host : String) : Bool := false

/-- The store-key string encoding is injective, as ObjectId rendering is. -/
theorem oidString_injective {a b : Nat} (h : oidString a = oidString b) :
    a = b := by
  have h2 := congrArg String.length h
  simpa [oidString, String.length] using h2

/-- find? commutes with a map that does not disturb the predicate. -/
theorem find?_map_pres {α : Type} (f : α → α) (p : α → Bool)
    (hp : ∀ a, p (f a) = p a) (l : List α) :
    (l.map f).find? p = (l.find? p).map f := by
  induction l with
  | nil => rfl
  | cons a t ih =>
      by_cases h : p a = true
      · simp [List.find?_cons, hp a, h]
      · have h2 : p a = false := by
          cases hpa : p a
          · rfl
          · exact absurd hpa h
        simp [List.find?_cons, hp a, h2, ih]

/-- Counterexample to claim C1 as stated: the identifier made of the IPv4
literal and one trailing newline is not syntactically a literal IPv4
address, yet with the store unavailable the operation probes it — the
pattern's dollar anchor accepts the trailing newline — so the answer
follows the probe verdict instead of being offline without probing. -/
theorem C1_counterexample :
    isIPv4Literal "1.2.3.4\n" = false ∧
    (device_status false dbEmpty pingAll "1.2.3.4\n").1 =
      Resp.okStatus "online" ∧
    (device_status false dbEmpty pingNone "1.2.3.4\n").1 =
      Resp.okStatus "offline" := by
  refine ⟨by decide, by decide, by decide⟩

/-- Claim C1 as amended: the status-check operation never fails with
Unavailable/503; with the store unavailable, an identifier accepted by the
application's IPv4 test — the source regular expression, which also
accepts a literal followed by one trailing newline — is itself used as the
probe target and the probe verdict is returned, and an identifier the test
rejects yields offline without consulting the probe, as that conjunct
holds for the arbitrary oracle supplied. -/
theorem C1_checkStatus_never_unavailable
    (db_available : Bool) (db : DB) (ping : String → Bool) (id : String) :
    respCode (device_status db_available db ping id).1 ≠ 503 ∧
    (db_available = false → is_ipv4 id = true →
       (device_status db_available db ping id).1 =
         Resp.okStatus (if ping id then "online" else "offline")) ∧
    (db_available = false → is_ipv4 id = false →
       (device_status db_available db ping id).1 = Resp.okStatus "offline") := by
  refine ⟨?_, ?_, ?_⟩
  · unfold device_status
    cases db_available
    · by_cases h : is_ipv4 id <;> simp [h, respCode]
    · simp only [Bool.true_eq_false, if_false, reduceIte]
      cases hf : find_device_by_any_id db.devices id <;> simp [hf, respCode]
  · rintro rfl h
    simp [device_status, h]
  · rintro rfl h
    simp [device_status, h]

/-- Witness for C1 at a concrete input: store down, a literal IPv4
identifier, an all-reachable probe; the answer is online. -/
theorem C1_checkStatus_never_unavailable_w :
    (device_status false dbEmpty pingAll "10.0.0.1").1 =
      Resp.okStatus "online" := by
  have h :=
    (C1_checkStatus_never_unavailable false dbEmpty pingAll "10.0.0.1").2.1
      rfl (by decide)
  simpa [pingAll] using h

/-- Shared witness fixture: a payload valid in the require-status mode. -/
def pOnline : Payload :=
  [("name", JVal.jstr "r1"), ("ip_address", JVal.jstr "10.0.0.1"),
   ("type", JVal.jstr "router"), ("location", JVal.jstr "rack1"),
   ("status", JVal.jstr "online")]

/-- Claim C2: an identifier that does not resolve to an existing record is
answered 404 by the read, update (with a valid body), delete and
status-check operations, leaving the store untouched; and resolution of an
identifier matching no stored key — malformed ones in particular — yields a
miss, never an error, so a malformed identifier is never surfaced as a 500. -/
theorem C2_unresolvable_identifier_not_found
    (db : DB) (ping : String → Bool) (id : String) (body : Payload)
    (hnf : find_device_by_any_id db.devices id = none)
    (hv : validate_device_payload body true = some (true, "")) :
    get_device true db id = Resp.error 404 "Device not found" ∧
    update_device true db id (some body) =
      (Resp.error 404 "Device not found", db) ∧
    delete_device true db id = (Resp.error 404 "Device not found", db) ∧
    device_status true db ping id = (Resp.error 404 "Device not found", db) ∧
    (∀ s : String, (∀ d ∈ db.devices, oidString d.oid ≠ s) →
        find_device_by_any_id db.devices s = none) := by
  refine ⟨?_, ?_, ?_, ?_, ?_⟩
  · simp [get_device, hnf]
  · simp [update_device, hv, hnf]
  · simp [delete_device, hnf]
  · simp [device_status, hnf]
  · intro s hs
    unfold find_device_by_any_id
    refine List.find?_eq_none.mpr ?_
    intro d hd
    simp [hs d hd]

/-- Witness for C2 at a concrete input: the empty store and an identifier
that is not a store key; the read answers 404. -/
theorem C2_unresolvable_identifier_not_found_w :
    get_device true dbEmpty "not-an-objectid" =
      Resp.error 404 "Device not found" :=
  (C2_unresolvable_identifier_not_found dbEmpty pingAll "not-an-objectid"
    pOnline (by decide) (by decide)).1

/-- Claim C3: when the stored ip_address of the resolved device is probed,
the operation answers online exactly when the probe reports the host
reachable and offline otherwise, and the status persisted on that device
(re-resolved by the same identifier afterwards) equals the answer. -/
theorem C3_probe_reconciles_and_persists
    (db : DB) (ping : String → Bool) (id : String) (device : Doc) (s : String)
    (hfind : find_device_by_any_id db.devices id = some device)
    (hip : device.ip_address = JVal.jstr s) (hs : (s == "") = false) :
    (ping s = true →
       (device_status true db ping id).1 = Resp.okStatus "online") ∧
    (ping s = false →
       (device_status true db ping id).1 = Resp.okStatus "offline") ∧
    find_device_by_any_id (device_status true db ping id).2.devices id =
      some { device with
              status := JVal.jstr (if ping s then "online" else "offline") } := by
  have hpres : ∀ st : String, ∀ d : Doc,
      (oidString (if d.oid == device.oid then
          { d with status := JVal.jstr st } else d).oid == id) =
        (oidString d.oid == id) := by
    intro st d
    by_cases h : d.oid == device.oid <;> simp [h]
  have hmain :
      device_status true db ping id =
        (Resp.okStatus (probeStatus ping device.ip_address),
         { db with
            devices := db.devices.map
              (fun d =>
                if d.oid == device.oid then
                  { d with
                      status := JVal.jstr (probeStatus ping device.ip_address) }
                else d) }) := by
    simp [device_status, hfind]
  have hstat :
      probeStatus ping device.ip_address =
        (if ping s then "online" else "offline") := by
    simp [probeStatus, hip, hs]
  refine ⟨?_, ?_, ?_⟩
  · intro hp
    rw [hmain]
    simp [hstat, hp]
  · intro hp
    rw [hmain]
    simp [hstat, hp]
  · rw [hmain]
    unfold find_device_by_any_id
    rw [find?_map_pres _ _ (hpres _)]
    have hfind2 := hfind
    unfold find_device_by_any_id at hfind2
    rw [hfind2]
    simp [hstat]

/-- Shared witness fixture: one stored router document under key 0. -/
def docW : Doc :=
  { oid := 0, name := JVal.jstr "r1", ip_address := JVal.jstr "10.0.0.1",
    type := JVal.jstr "router", location := JVal.jstr "rack1",
    status := JVal.jstr "offline" }

/-- Shared witness fixture: a store holding exactly docW. -/
def dbW : DB := { devices := [docW], nextId := 1 }

/-- Witness for C3 at a concrete input: one stored device, an
all-unreachable probe; the answer is offline and the store afterwards holds
the device with status offline. -/
theorem C3_probe_reconciles_and_persists_w :
    (device_status true dbW pingNone (oidString 0)).1 =
      Resp.okStatus "offline" := by
  have h :=
    C3_probe_reconciles_and_persists dbW pingNone (oidString 0) docW
      "10.0.0.1" (by decide) rfl (by decide)
  exact h.2.1 rfl

/-- Claim C4: creating with an ip_address already held by a live document
answers 409 and leaves the store exactly as it was — so no duplicate exists
afterwards — while creating with a fresh ip_address and an accepted payload
answers 201 and appends exactly the submitted document under a fresh key. -/
theorem C4_create_duplicate_ip_conflict
    (db : DB) (payload : Payload) (ip : JVal)
    (hip : List.lookup "ip_address" payload = some ip)
    (hv : validate_device_payload payload false = some (true, "")) :
    ((∃ d ∈ db.devices, d.ip_address = ip) →
        create_device true db (some payload) =
          (Resp.error 409 "Device with this IP already exists", db)) ∧
    ((∀ d ∈ db.devices, d.ip_address ≠ ip) →
        create_device true db (some payload) =
          (Resp.okDevice 201
             (serialize_device (newDoc db.nextId (withStatusDefault payload))),
           { devices := db.devices ++ [newDoc db.nextId (withStatusDefault payload)],
             nextId := db.nextId + 1 })) := by
  have hip2 : List.lookup "ip_address" (withStatusDefault payload) = some ip := by
    unfold withStatusDefault
    by_cases h : List.lookup "status" payload = none
    · simp [h, List.lookup_append, hip]
    · simp [h, hip]
  constructor
  · intro hdup
    have hany : db.devices.any
        (fun d => d.ip_address ==
          (List.lookup "ip_address" (withStatusDefault payload)).getD JVal.jnull) = true := by
      refine List.any_eq_true.mpr ?_
      obtain ⟨d, hd, hdip⟩ := hdup
      exact ⟨d, hd, by simp [hip2, hdip]⟩
    simp [create_device, hv, hany]
  · intro hfresh
    have hany : db.devices.any
        (fun d => d.ip_address ==
          (List.lookup "ip_address" (withStatusDefault payload)).getD JVal.jnull) = false := by
      refine Bool.eq_false_iff.mpr ?_
      intro hcontra
      obtain ⟨d, hd, hdip⟩ := List.any_eq_true.mp hcontra
      refine hfresh d hd ?_
      simpa [hip2] using hdip
    simp [create_device, hv, hany]

/-- Witness for C4 at a concrete input: creating pOnline into a store
already holding its IP answers 409 and the store is unchanged. -/
theorem C4_create_duplicate_ip_conflict_w :
    create_device true dbW (some pOnline) =
      (Resp.error 409 "Device with this IP already exists", dbW) := by
  have h :=
    (C4_create_duplicate_ip_conflict dbW pOnline (JVal.jstr "10.0.0.1")
      (by decide) (by decide)).1
  exact h ⟨docW, by decide, by decide⟩

/-- The acceptance condition of section 4.1 of the spec, written as the
conjunction of the four rules over the code's own tests: every required
field present and non-empty, the ip_address test returning a match (rather
than raising), the type enumeration, and — when status is required — the
status enumeration. -/
def validatorAccepts (p : Payload) (rs : Bool) : Bool :=
  (requiredFields rs).all (fun k => !fieldMissing p k) &&
  (is_ipv4_get (List.lookup "ip_address" p) == some true) &&
  typeValid p && (!rs || statusValid p)

/-- Shared fixture: a create payload whose ip_address carries one trailing
newline after the literal. -/
def pTrailingNl : Payload :=
  [("name", JVal.jstr "r1"), ("ip_address", JVal.jstr "1.2.3.4\n"),
   ("type", JVal.jstr "router"), ("location", JVal.jstr "rack1")]

/-- Shared fixture: a create payload whose ip_address is boolean true. -/
def pBoolIp : Payload :=
  [("name", JVal.jstr "r1"), ("ip_address", JVal.jbool true),
   ("type", JVal.jstr "router"), ("location", JVal.jstr "rack1")]

/-- Counterexample to claim C5 as stated: a payload whose ip_address is
the IPv4 literal followed by one trailing newline — not IPv4 syntax — is
accepted, because the pattern's dollar anchor also matches before a final
newline; and a payload whose ip_address is boolean true makes the test
raise TypeError, which escapes the validator instead of yielding a message
naming the offending field. -/
theorem C5_counterexample :
    validate_device_payload pTrailingNl false = some (true, "") ∧
    isIPv4Literal "1.2.3.4\n" = false ∧
    validate_device_payload pBoolIp false = none := by
  refine ⟨by decide, by decide, by decide⟩

/-- Claim C5 as amended: the validator applies its rules in the fixed
order — required fields in their fixed order first, then the ip_address
test, then the type enumeration, then (when required) the status
enumeration — returning on the first failing rule a single message naming
the first offending field, and accepting exactly when all rules pass,
where the ip_address rule is the application's regular-expression test:
it also accepts a literal followed by one trailing newline, and on a
boolean-true ip_address it raises, the exception escaping the validator
instead of producing a message; IPv6 forms are rejected. -/
theorem C5_validator_rules (p : Payload) (rs : Bool) :
    ((validate_device_payload p rs = some (true, "")) ↔
      validatorAccepts p rs = true) ∧
    (∀ k : String,
       (requiredFields rs).find? (fun k2 => fieldMissing p k2) = some k →
        validate_device_payload p rs = some (false, k ++ " is required")) ∧
    ((requiredFields rs).all (fun k => !fieldMissing p k) = true →
      is_ipv4_get (List.lookup "ip_address" p) = some false →
        validate_device_payload p rs =
          some (false, "ip_address must be valid IPv4")) ∧
    ((requiredFields rs).all (fun k => !fieldMissing p k) = true →
      is_ipv4_get (List.lookup "ip_address" p) = none →
        validate_device_payload p rs = none) ∧
    ((requiredFields rs).all (fun k => !fieldMissing p k) = true →
      is_ipv4_get (List.lookup "ip_address" p) = some true →
      typeValid p = false →
        validate_device_payload p rs =
          some (false, "type must be one of router, switch, server")) ∧
    ((requiredFields rs).all (fun k => !fieldMissing p k) = true →
      is_ipv4_get (List.lookup "ip_address" p) = some true →
      typeValid p = true → rs = true → statusValid p = false →
        validate_device_payload p rs =
          some (false, "status must be one of online, offline")) ∧
    (is_ipv4 "::1" = false ∧ is_ipv4 "2001:db8::1" = false) := by
  cases hfind : (requiredFields rs).find? (fun k2 => fieldMissing p k2) with
  | some k0 =>
      have hmem : k0 ∈ requiredFields rs := List.mem_of_find?_eq_some hfind
      have hmiss : fieldMissing p k0 = true := List.find?_some hfind
      have hall : (requiredFields rs).all (fun k => !fieldMissing p k) = false := by
        refine Bool.eq_false_iff.mpr ?_
        intro hcontra
        have h2 := List.all_eq_true.mp hcontra k0 hmem
        simp [hmiss] at h2
      refine ⟨?_, ?_, ?_, ?_, ?_, ?_, by decide⟩
      · simp [validate_device_payload, hfind, validatorAccepts, hall]
      · intro k hk
        injection hk with hk0
        subst hk0
        simp [validate_device_payload, hfind]
      · intro h1
        rw [hall] at h1
        cases h1
      · intro h1
        rw [hall] at h1
        cases h1
      · intro h1
        rw [hall] at h1
        cases h1
      · intro h1
        rw [hall] at h1
        cases h1
  | none =>
      have hnone : ∀ k ∈ requiredFields rs, fieldMissing p k = false := by
        intro k hk
        have h2 := List.find?_eq_none.mp hfind k hk
        simpa using h2
      have hall : (requiredFields rs).all (fun k => !fieldMissing p k) = true := by
        refine List.all_eq_true.mpr ?_
        intro x hx
        simp [hnone x hx]
      have hveq : validate_device_payload p rs =
          (match is_ipv4_get (List.lookup "ip_address" p) with
           | none => none
           | some ipok =>
             if ipok = false then
               some (false, "ip_address must be valid IPv4")
             else if typeValid p = false then
               some (false, "type must be one of router, switch, server")
             else if rs && !statusValid p then
               some (false, "status must be one of online, offline")
             else some (true, "")) := by
        unfold validate_device_payload
        rw [hfind]
      simp only [hveq]
      cases h1 : is_ipv4_get (List.lookup "ip_address" p) with
      | none =>
          refine ⟨?_, ?_, ?_, ?_, ?_, ?_, by decide⟩ <;>
            simp_all [validatorAccepts]
      | some b =>
          cases b <;>
            cases h2 : typeValid p <;>
            cases h3 : statusValid p <;>
            cases rs <;>
            refine ⟨?_, ?_, ?_, ?_, ?_, ?_, by decide⟩ <;>
            simp_all [validatorAccepts]

/-- Shared witness fixture: a payload whose type is outside the
enumeration but whose earlier rules pass. -/
def pBadType : Payload :=
  [("name", JVal.jstr "r1"), ("ip_address", JVal.jstr "10.0.0.1"),
   ("type", JVal.jstr "hub"), ("location", JVal.jstr "rack1")]

/-- Witness for the amended C5 at a concrete input: with the first two
rules passing and the type outside the enumeration, the validator returns
the type message. -/
theorem C5_validator_rules_w :
    validate_device_payload pBadType false =
      some (false, "type must be one of router, switch, server") :=
  (C5_validator_rules pBadType false).2.2.2.2.1 (by decide) (by decide)
    (by decide)

/-- The name fields of a device-list response, in response order. -/
def devNames (r : Resp) : List JVal :=
  match r with
  | Resp.okList ds => ds.map (fun d => d.name)
  | _ => []

/-- Lexicographic order on character lists (per code points), the order of
the sorted-by-name-ascending wording of the spec. -/
def strLe : List Char → List Char → Bool
  | [], _ => true
  | _ :: _, [] => false
  | a :: xs, b :: ys => decide (a < b) || (a == b && strLe xs ys)

/-- Ascending sortedness by name of a device-list response, per the spec
wording (the order on the string names; non-string names do not occur in
responses built by the handlers and are not constrained). -/
def namesSortedAsc : List JVal → Bool
  | [] => true
  | [_] => true
  | a :: b :: t =>
      (match a, b with
       | JVal.jstr x, JVal.jstr y => strLe x.data y.data
       | _, _ => true) && namesSortedAsc (b :: t)

/-- Shared fixture: a valid create payload named b. -/
def pNameB : Payload :=
  [("name", JVal.jstr "b"), ("ip_address", JVal.jstr "10.0.0.2"),
   ("type", JVal.jstr "switch"), ("location", JVal.jstr "r1")]

/-- Shared fixture: a valid create payload named a. -/
def pNameA : Payload :=
  [("name", JVal.jstr "a"), ("ip_address", JVal.jstr "10.0.0.3"),
   ("type", JVal.jstr "switch"), ("location", JVal.jstr "r1")]

/-- Shared fixture: the store reached from empty by creating the device
named b and then the device named a. -/
def dbBA : DB :=
  (create_device true (create_device true dbEmpty (some pNameB)).2
    (some pNameA)).2

/-- Counterexample to claim C6 as stated: after creating a device named b
and then one named a, the list operation returns the two devices in store
(insertion) order b, a — not sorted by name ascending.  (The unregistered
blueprint draft under routes/ sorts; the deployed app.py handler does
not.) -/
theorem C6_counterexample :
    devNames (list_devices true dbBA) = [JVal.jstr "b", JVal.jstr "a"] ∧
    namesSortedAsc (devNames (list_devices true dbBA)) = false := by
  constructor <;> decide

/-- Claim C6 as amended: the list operation returns the full set of devices
serialized in the store's insertion order (no sorting applied), the empty
sequence when no devices exist, and fails only when the store is
unavailable. -/
theorem C6_list_full_scan_store_order (db_available : Bool) (db : DB) :
    (db_available = true →
       list_devices db_available db =
         Resp.okList (db.devices.map serialize_device)) ∧
    (db_available = true → db.devices = [] →
       list_devices db_available db = Resp.okList []) ∧
    (db_available = false →
       list_devices db_available db = Resp.error 503 "Database unavailable") := by
  refine ⟨?_, ?_, ?_⟩
  · rintro rfl
    simp [list_devices]
  · rintro rfl h
    simp [list_devices, h]
  · rintro rfl
    simp [list_devices]

/-- Witness for the amended C6 at a concrete input: the empty store lists
as the empty sequence. -/
theorem C6_list_full_scan_store_order_w :
    list_devices true dbEmpty = Resp.okList [] :=
  (C6_list_full_scan_store_order true dbEmpty).2.1 rfl rfl

/-- Claim C7: updating a resolved device to an ip_address held by a
different live document answers 409 and leaves the store exactly as it was,
while updating it with its own current ip_address — the uniqueness probe
excludes the record being updated — succeeds with 200 and returns the
updated device. -/
theorem C7_update_ip_uniqueness_excludes_self
    (db : DB) (id : String) (payload : Payload) (doc : Doc) (newIp : JVal)
    (hv : validate_device_payload payload true = some (true, ""))
    (hfind : find_device_by_any_id db.devices id = some doc)
    (hip : List.lookup "ip_address" payload = some newIp) :
    ((∃ other ∈ db.devices, other.oid ≠ doc.oid ∧ other.ip_address = newIp) →
        update_device true db id (some payload) =
          (Resp.error 409 "Device with this IP already exists", db)) ∧
    (newIp = doc.ip_address →
     (∀ other ∈ db.devices, other.ip_address = newIp → other.oid = doc.oid) →
        update_device true db id (some payload) =
          (Resp.okDevice 200 (serialize_device (updateFields doc.oid payload)),
           { db with
              devices := db.devices.map
                (fun d =>
                  if d.oid == doc.oid then updateFields doc.oid payload
                  else d) })) := by
  constructor
  · intro hdup
    have hany : db.devices.any
        (fun d =>
          d.ip_address == (List.lookup "ip_address" payload).getD JVal.jnull
            && !(d.oid == doc.oid)) = true := by
      refine List.any_eq_true.mpr ?_
      obtain ⟨o, ho, hoid, hoip⟩ := hdup
      exact ⟨o, ho, by simp [hip, hoip, hoid]⟩
    simp [update_device, hv, hfind, hany]
  · intro hown huniq
    have hany : db.devices.any
        (fun d =>
          d.ip_address == (List.lookup "ip_address" payload).getD JVal.jnull
            && !(d.oid == doc.oid)) = false := by
      refine Bool.eq_false_iff.mpr ?_
      intro hc
      obtain ⟨o, ho, hpred⟩ := List.any_eq_true.mp hc
      simp [hip] at hpred
      exact hpred.2 (huniq o ho hpred.1)
    simp [update_device, hv, hfind, hany, hip]
    exact huniq

/-- Witness for C7 at a concrete input: updating the stored device with its
own IP succeeds with 200 and the updated fields. -/
theorem C7_update_ip_uniqueness_excludes_self_w :
    (update_device true dbW (oidString 0) (some pOnline)).1 =
      Resp.okDevice 200 (serialize_device (updateFields 0 pOnline)) := by
  have h :=
    (C7_update_ip_uniqueness_excludes_self dbW (oidString 0) pOnline docW
      (JVal.jstr "10.0.0.1") (by decide) (by decide) (by decide)).2 rfl
      (by decide)
  rw [h]
  rfl

/-- Counterexample to claim C8 as stated: with the store unavailable the
health body reports db_available false, but it carries no error string —
its keys are exactly success, service, db_available and timestamp, and the
init_db error message is not even an input of the handler (see the
signature of health). -/
theorem C8_counterexample :
    (health false "2024-01-01T00:00:00Z").1 = 200 ∧
    List.lookup "db_available" (health false "2024-01-01T00:00:00Z").2 =
      some (JVal.jbool false) ∧
    List.lookup "error" (health false "2024-01-01T00:00:00Z").2 = none ∧
    (health false "2024-01-01T00:00:00Z").2.map Prod.fst =
      ["success", "service", "db_available", "timestamp"] := by
  refine ⟨rfl, by decide, by decide, rfl⟩

/-- Claim C8 as amended: when the store is unavailable, each of list,
create, get, update and delete answers 503 without performing any store
write, and the health endpoint still answers 200 with a body reporting
db_available as false (no error string is included in the body). -/
theorem C8_unavailable_uniform_503
    (db : DB) (id : String) (body : Option Payload) (ts : String)
    (ping : String → Bool) :
    list_devices false db = Resp.error 503 "Database unavailable" ∧
    create_device false db body = (Resp.error 503 "Database unavailable", db) ∧
    get_device false db id = Resp.error 503 "Database unavailable" ∧
    update_device false db id body =
      (Resp.error 503 "Database unavailable", db) ∧
    delete_device false db id = (Resp.error 503 "Database unavailable", db) ∧
    respCode (device_status false db ping id).1 = 200 ∧
    (health false ts).1 = 200 ∧
    List.lookup "db_available" (health false ts).2 = some (JVal.jbool false) := by
  refine ⟨rfl, rfl, rfl, rfl, rfl, ?_, rfl, rfl⟩
  unfold device_status
  by_cases h : is_ipv4 id <;> simp [h, respCode]

/-- An accepted payload has no missing required field. -/
theorem validate_ok_no_missing {p : Payload} {rs : Bool}
    (hv : validate_device_payload p rs = some (true, "")) :
    ∀ k ∈ requiredFields rs, fieldMissing p k = false := by
  intro k hk
  unfold validate_device_payload at hv
  cases hfind : (requiredFields rs).find? (fun k2 => fieldMissing p k2) with
  | some k0 =>
      rw [hfind] at hv
      simp at hv
  | none =>
      have h2 := List.find?_eq_none.mp hfind k hk
      simpa using h2

/-- A non-missing field is present with a value other than null and other
than the empty string. -/
theorem fieldPresent {p : Payload} {k : String}
    (h : fieldMissing p k = false) :
    ∃ v, List.lookup k p = some v ∧ v ≠ JVal.jnull ∧ v ≠ JVal.jstr "" := by
  unfold fieldMissing at h
  cases hl : List.lookup k p with
  | none =>
      rw [hl] at h
      cases h
  | some v =>
      rw [hl] at h
      refine ⟨v, rfl, ?_, ?_⟩ <;> intro hq <;> subst hq <;> simp at h

/-- Status defaulting does not disturb the other keys. -/
theorem lookup_withStatusDefault (p : Payload) (k : String)
    (hk : (k == "status") = false) :
    List.lookup k (withStatusDefault p) = List.lookup k p := by
  unfold withStatusDefault
  by_cases h : List.lookup "status" p = none
  · simp [h, List.lookup_append, List.lookup, hk]
  · simp [h]

/-- After status defaulting, the status key holds the submitted value, or
the string offline when it was absent. -/
theorem lookup_withStatusDefault_status (p : Payload) :
    List.lookup "status" (withStatusDefault p) =
      some ((List.lookup "status" p).getD (JVal.jstr "offline")) := by
  unfold withStatusDefault
  cases h : List.lookup "status" p with
  | none => simp [h, List.lookup_append, List.lookup]
  | some v => simp [h]

/-- Shared fixture: a valid create payload whose status is the empty
string. -/
def pEmptyStatus : Payload :=
  [("name", JVal.jstr "r1"), ("ip_address", JVal.jstr "10.0.0.9"),
   ("type", JVal.jstr "router"), ("location", JVal.jstr "rack"),
   ("status", JVal.jstr "")]

/-- Shared fixture: the device the C9 counterexample run returns. -/
def devES : DeviceOut :=
  { id := oidString 0, name := JVal.jstr "r1",
    ip_address := JVal.jstr "10.0.0.9", type := JVal.jstr "router",
    location := JVal.jstr "rack", status := JVal.jstr "offline" }

/-- Counterexample to claim C9 as stated: the payload pEmptyStatus is
accepted by the validator (create does not validate status) and submits
status as the empty string, yet creating it and reading it back by the
returned id yields status offline — the submitted status field is not
reproduced exactly. -/
theorem C9_counterexample :
    validate_device_payload pEmptyStatus false = some (true, "") ∧
    List.lookup "status" pEmptyStatus = some (JVal.jstr "") ∧
    (create_device true dbEmpty (some pEmptyStatus)).1 =
      Resp.okDevice 201 devES ∧
    get_device true (create_device true dbEmpty (some pEmptyStatus)).2
      devES.id = Resp.okDevice 200 devES ∧
    devES.status ≠ JVal.jstr "" := by
  refine ⟨by decide, by decide, by decide, by decide, by decide⟩

/-- Claim C9 as amended: creating an accepted payload with a fresh
ip_address into a store with fresh keys and immediately reading it by the
returned id reproduces name, ip_address, type and location exactly;
status is reproduced exactly when it was submitted as a truthy value, and
reads back as the string offline when it was omitted — and likewise when it
was submitted null or empty, the two cases the counterexample forces out of
the exact-reproduction clause. -/
theorem C9_roundtrip
    (db : DB) (payload : Payload)
    (hfresh : ∀ d ∈ db.devices, d.oid < db.nextId)
    (hv : validate_device_payload payload false = some (true, ""))
    (hnewip : ∀ d ∈ db.devices,
        List.lookup "ip_address" payload ≠ some d.ip_address) :
    ∃ dev : DeviceOut,
      (create_device true db (some payload)).1 = Resp.okDevice 201 dev ∧
      get_device true (create_device true db (some payload)).2 dev.id =
        Resp.okDevice 200 dev ∧
      dev.name = (List.lookup "name" payload).getD JVal.jnull ∧
      dev.ip_address = (List.lookup "ip_address" payload).getD JVal.jnull ∧
      dev.type = (List.lookup "type" payload).getD JVal.jnull ∧
      dev.location = (List.lookup "location" payload).getD JVal.jnull ∧
      (List.lookup "status" payload = none →
         dev.status = JVal.jstr "offline") ∧
      (∀ v, List.lookup "status" payload = some v →
         truthy (some v) = true → dev.status = v) ∧
      (∀ v, List.lookup "status" payload = some v →
         truthy (some v) = false → dev.status = JVal.jstr "offline") := by
  obtain ⟨ipv, hip, -, -⟩ :=
    fieldPresent (validate_ok_no_missing hv "ip_address" (by decide))
  have hip2 : List.lookup "ip_address" (withStatusDefault payload) = some ipv := by
    rw [lookup_withStatusDefault payload "ip_address" (by decide)]
    exact hip
  have hany : db.devices.any
      (fun d => d.ip_address ==
        (List.lookup "ip_address" (withStatusDefault payload)).getD JVal.jnull) = false := by
    refine Bool.eq_false_iff.mpr ?_
    intro hc
    obtain ⟨d, hd, hdip⟩ := List.any_eq_true.mp hc
    rw [hip2] at hdip
    refine hnewip d hd ?_
    rw [hip]
    have h3 : d.ip_address = ipv := by simpa using hdip
    rw [h3]
  have hcreate : create_device true db (some payload) =
      (Resp.okDevice 201
         (serialize_device (newDoc db.nextId (withStatusDefault payload))),
       { devices := db.devices ++ [newDoc db.nextId (withStatusDefault payload)],
         nextId := db.nextId + 1 }) := by
    simp [create_device, hv, hany]
  refine ⟨serialize_device (newDoc db.nextId (withStatusDefault payload)),
    ?_, ?_, ?_, ?_, ?_, ?_, ?_, ?_, ?_⟩
  · rw [hcreate]
  · rw [hcreate]
    unfold get_device
    have hfound :
        find_device_by_any_id
          (db.devices ++ [newDoc db.nextId (withStatusDefault payload)])
          (serialize_device (newDoc db.nextId (withStatusDefault payload))).id =
          some (newDoc db.nextId (withStatusDefault payload)) := by
      unfold find_device_by_any_id
      rw [List.find?_append]
      have hleft : db.devices.find?
          (fun d => oidString d.oid ==
            (serialize_device (newDoc db.nextId (withStatusDefault payload))).id) = none := by
        refine List.find?_eq_none.mpr ?_
        intro d hd
        simp only [serialize_device, newDoc]
        intro hbeq
        have heq : oidString d.oid = oidString db.nextId := by simpa using hbeq
        have h4 : d.oid = db.nextId := oidString_injective heq
        exact absurd h4 (Nat.ne_of_lt (hfresh d hd))
      rw [hleft]
      simp [serialize_device, newDoc]
    simp [hfound]
  · simp [serialize_device, newDoc,
      lookup_withStatusDefault payload "name" (by decide)]
  · simp [serialize_device, newDoc,
      lookup_withStatusDefault payload "ip_address" (by decide)]
  · simp [serialize_device, newDoc,
      lookup_withStatusDefault payload "type" (by decide)]
  · simp [serialize_device, newDoc,
      lookup_withStatusDefault payload "location" (by decide)]
  · intro hnone
    simp [serialize_device, newDoc, lookup_withStatusDefault_status, hnone,
      truthy]
  · intro v hvst htr
    simp [serialize_device, newDoc, lookup_withStatusDefault_status, hvst,
      htr]
  · intro v hvst htr
    simp [serialize_device, newDoc, lookup_withStatusDefault_status, hvst,
      htr]

/-- Witness for the amended C9 at a concrete input: creating pNameA into
the empty store and reading it back reproduces its name. -/
theorem C9_roundtrip_w :
    ∃ dev : DeviceOut,
      (create_device true dbEmpty (some pNameA)).1 =
        Resp.okDevice 201 dev ∧
      dev.name = JVal.jstr "a" ∧ dev.status = JVal.jstr "offline" := by
  obtain ⟨dev, h1, h2, h3, h4, h5, h6, h7, h8, h9⟩ :=
    C9_roundtrip dbEmpty pNameA (by decide) (by decide) (by decide)
  exact ⟨dev, h1, h3.trans (by decide), h7 (by decide)⟩

/-- Claim C10: a create or update request whose body is absent or not
parseable as JSON (get_json with silent yields nothing, and the handler
replaces it — like an empty or false-parsing body — with the empty object)
fails with the validation message naming the first required field, name,
leaves the store untouched, and is never surfaced as a parse exception or
a 500. -/
theorem C10_malformed_body_validation (db : DB) (id : String) :
    create_device true db none = (Resp.error 400 "name is required", db) ∧
    update_device true db id none = (Resp.error 400 "name is required", db) ∧
    create_device true db (some []) =
      (Resp.error 400 "name is required", db) ∧
    update_device true db id (some []) =
      (Resp.error 400 "name is required", db) := by
  refine ⟨?_, ?_, ?_, ?_⟩ <;> rfl
